import Mathlib

/-!
# Verification of `mapsutils.py` (Maps-Service)

Shallow embedding of the Python module `src/mapsutils.py` together with
theorems settling the specification claims about it.

Modelling conventions:
* Python floats are modelled as exact rationals (`ℚ`); Python's `str` on a
  float is modelled by an abstract rendering function `ℚ → String` passed as
  a parameter wherever the source calls `str` on a number.
* Network calls (`geopy` geocoder calls, `_json_from_url`) are modelled as
  oracle functions passed as parameters; a raised exception from such a call
  is modelled as `Except.error ()` from the oracle.
* A Python method raising `ValueError` is modelled by returning
  `Except.error e` for the corresponding `MapError` constructor.
* Stateful methods on `Localizacion`/`Ruta` take the object state and return
  the (possibly mutated) state; they additionally return the list of external
  provider calls they issued, so that "no network call is made" claims can be
  stated as the trace being empty.
-/

deriving instance DecidableEq for Except

/-- A position as accepted throughout `mapsutils.py`: either a latitude /
longitude pair (Python tuple or list) or a free-text address (Python str). -/
inductive Ubicacion where
  | coord (lat lng : ℚ)
  | addr (text : String)
deriving DecidableEq

/-- The distinct `ValueError`s raised by `mapsutils.py`, plus the Python
runtime errors that its code can hit (attribute / index errors). -/
inductive MapError where
  /-- `'Latitud inválida'` or `'Longitud inválida'` from
  `_tuple_LatLng_to_string` (the spec's `InvalidPosition`). -/
  | invalidPosition (msg : String)
  /-- `'La localización ya ha sido procesada'` (the spec's `AlreadyResolved`). -/
  | yaProcesada
  /-- `'No es necesario procesar la ubicación'`. -/
  | noEsNecesario
  /-- `'Error, al procesar REST'` (the spec's `ResolutionFailed`). -/
  | restError
  /-- `'Error, no hay datos de ubicación para procesar'`. -/
  | sinDatos
  /-- `'Debe especificar una latitud y una longitud o una dirección'`. -/
  | faltanArgumentos
  /-- `'La localización de inicio no ha sido procesada, porfavor ejecutar
  método procesar()'` (the spec's `DependencyUnresolved`, start endpoint). -/
  | inicioNoProcesada
  /-- `'La localización de final no ha sido procesada, porfavor ejecutar
  método procesar()'` (the spec's `DependencyUnresolved`, end endpoint). -/
  | finalNoProcesada
  /-- `'La velocidad debe ser mayor a cero.'` (the spec's `InvalidSpeed`). -/
  | velocidadInvalida
  /-- Python `AttributeError`/`KeyError` on reading `self.data` before it was
  ever assigned (unreachable from states the constructors produce). -/
  | attributeError
  /-- Python `IndexError` on `resourceSets[0]` / `resources[0]`. -/
  | indexError
  /-- A transport failure inside `_json_from_url` (propagates unchanged out
  of the `_rest_*` provider methods). -/
  | urlError
deriving DecidableEq

/-- `_tuple_LatLng_to_string` (src/mapsutils.py:30-53).  `str` is the
rendering Python's built-in `str` applies to the two numbers. -/
def tuple_LatLng_to_string (str : ℚ → String) (latlng : ℚ × ℚ) :
    Except MapError String :=
  let lat := latlng.1
  let lng := latlng.2
  if 90 < lat ∨ lat < -90 then .error (.invalidPosition "Latitud inválida")
  else if 180 < lng ∨ lng < -180 then .error (.invalidPosition "Longitud inválida")
  else .ok (str lat ++ "," ++ str lng)

/-- `_posicion_a_string_url` (src/mapsutils.py:70-85): a coordinate goes
through `_tuple_LatLng_to_string`; an address string is returned literally
(the `urllib.parse.quote` call there is commented out in the source). -/
def posicion_a_string_url (str : ℚ → String) : Ubicacion → Except MapError String
  | .coord lat lng => tuple_LatLng_to_string str (lat, lng)
  | .addr text => .ok text

/-- The body of the waypoint loop in `_rest_ruta` (src/mapsutils.py:225-229):
position `n` (1-based) out of `numero_paradas` becomes a `wayPoint.n` entry
when it is the first or last stop and a `viaWayPoint.n` entry otherwise. -/
def wayPointEntry (numero_paradas : ℕ) (p : ℕ × String) : String × String :=
  if p.1 = 1 ∨ p.1 = numero_paradas
  then ("wayPoint." ++ toString p.1, p.2)
  else ("viaWayPoint." ++ toString p.1, p.2)

/-- The `viajes` dictionary built by `_rest_ruta` (src/mapsutils.py:220-229),
identical in `OpenService._rest_ruta`, `BingService._rest_ruta` and both
`_rest_ruta_imagen` methods: `zip(range(1, numero_paradas + 1), paradas)` is
`(List.range' 1 numero_paradas).zip paradas`.  Represented as the insertion
ordered key/value list of the Python dict (all keys produced are distinct). -/
def viajes_dict (paradas : List String) : List (String × String) :=
  let numero_paradas := paradas.length
  ((List.range' 1 numero_paradas).zip paradas).map (wayPointEntry numero_paradas)

/-- The list comprehension
`[_posicion_a_string_url(latlng) for latlng in via]` of `_rest_ruta`
(src/mapsutils.py:217), evaluated left to right, an exception propagating. -/
def via_tokens (str : ℚ → String) : List Ubicacion → Except MapError (List String)
  | [] => .ok []
  | u :: us =>
    match posicion_a_string_url str u with
    | .error e => .error e
    | .ok t =>
      match via_tokens str us with
      | .error e => .error e
      | .ok ts => .ok (t :: ts)

/-- The `paradas` list built by `_rest_ruta` (src/mapsutils.py:212-218):
start token, then via tokens in order, then end token, each through
`_posicion_a_string_url` (the `if len(via) > 0` guard is equivalent to
appending unconditionally). -/
def rest_ruta_paradas (str : ℚ → String) (inicio final : Ubicacion)
    (via : List Ubicacion) : Except MapError (List String) :=
  match posicion_a_string_url str inicio with
  | .error e => .error e
  | .ok i =>
    match via_tokens str via with
    | .error e => .error e
    | .ok vs =>
      match posicion_a_string_url str final with
      | .error e => .error e
      | .ok f => .ok (i :: (vs ++ [f]))

/-! ## The fallback (Bing) location request, as assembled by
`OpenService._rest_localizacion` / `BingService._rest_localizacion` -/

/-- A value stored in the Python `kwargs` dict before `urlencode` runs on it:
either a string, or the raw latitude/longitude tuple that the coordinate
branch stores under `'query'`. -/
inductive PyParam where
  | str (s : String)
  | tup (p : ℚ × ℚ)
deriving DecidableEq

/-- Python `dict.update` with a single key: replace the value in place if the
key is present, else append the new binding. -/
def updateParam (kw : List (String × PyParam)) (k : String) (v : PyParam) :
    List (String × PyParam) :=
  if kw.any (fun p => p.1 = k) then kw.map (fun p => if p.1 = k then (k, v) else p)
  else kw ++ [(k, v)]

/-- The structure of the URL that `_rest_localizacion` hands to
`_json_from_url` when it falls through to the Bing endpoint: the base
`Locations` URL, an optional path segment appended before the `?`, and the
`kwargs` dict that `urlencode` serialises after the `?`. -/
structure FallbackLocRequest where
  pathSegment : Option String
  params : List (String × PyParam)
deriving DecidableEq

/-- The payload shape both providers are unwrapped into:
`point.coordinates` and `address.formattedAddress`. -/
structure LocData where
  coordinates : ℚ × ℚ
  formattedAddress : String
deriving DecidableEq

/-- One entry of `resourceSets` in a Bing REST response. -/
structure ResourceSet where
  resources : List LocData
deriving DecidableEq

/-- A Bing REST location response body, as consumed by
`data['resourceSets'][0]['resources'][0]`. -/
structure BingResponse where
  resourceSets : List ResourceSet
deriving DecidableEq

/-- The geopy result object (`res.latitude`, `res.longitude`, `res.address`)
returned by `Nominatim.reverse` / `Nominatim.geocode`. -/
structure GeoResult where
  latitude : ℚ
  longitude : ℚ
  address : String
deriving DecidableEq

/-- The primary (Nominatim) lookup dispatch at the top of
`OpenService._rest_localizacion` (src/mapsutils.py:147-152): a tuple/list
goes to `geolocator.reverse`, a string to `geolocator.geocode`.  The two
geocoder methods are external collaborators, passed as oracles. -/
def primaryLookup (reverse : ℚ × ℚ → Option GeoResult)
    (geocode : String → Option GeoResult) : Ubicacion → Option GeoResult
  | .coord lat lng => reverse (lat, lng)
  | .addr a => geocode a

/-- `OpenService._rest_localizacion` (src/mapsutils.py:136-192).
`fetch` models `_json_from_url` (an exception there is `.error ()`); the
result also carries the fallback request issued, `none` when the primary
answer was used.  When the primary geocoder returns a result the method
builds the `proc` JSON string out of `res.latitude`, `res.longitude` and
`res.address` and parses it back, which is the identity on this model.
When it returns `None`, the method adds `key` to `kwargs` and then, for a
tuple/list input, adds the raw tuple under `'query'`, while for a string
input it appends `'/' + urllib.parse.quote(ubicacion)` to the URL path
(`quote` is the external percent-encoder, passed as an oracle). -/
def OpenService.rest_localizacion (reverse : ℚ × ℚ → Option GeoResult)
    (geocode : String → Option GeoResult)
    (fetch : FallbackLocRequest → Except Unit BingResponse)
    (api_key : String) (quote : String → String)
    (ubicacion : Ubicacion) (kwargs : List (String × PyParam)) :
    Except MapError (LocData × Option FallbackLocRequest) :=
  match primaryLookup reverse geocode ubicacion with
  | none =>
    let kwargs1 := updateParam kwargs "key" (.str api_key)
    let req : FallbackLocRequest :=
      match ubicacion with
      | .coord lat lng => ⟨none, updateParam kwargs1 "query" (.tup (lat, lng))⟩
      | .addr a => ⟨some (quote a), kwargs1⟩
    match fetch req with
    | .error _ => .error .urlError
    | .ok data =>
      match data.resourceSets with
      | [] => .error .indexError
      | rs :: _ =>
        match rs.resources with
        | [] => .error .indexError
        | r :: _ => .ok (r, some req)
  | some res => .ok (⟨(res.latitude, res.longitude), res.address⟩, none)

/-- `BingService._rest_localizacion` (src/mapsutils.py:392-436): exactly the
fallback block of `OpenService._rest_localizacion`, with no primary tier.
Returns the payload together with the request it issued. -/
def BingService.rest_localizacion
    (fetch : FallbackLocRequest → Except Unit BingResponse)
    (api_key : String) (quote : String → String)
    (ubicacion : Ubicacion) (kwargs : List (String × PyParam)) :
    Except MapError (LocData × FallbackLocRequest) :=
  let kwargs1 := updateParam kwargs "key" (.str api_key)
  let req : FallbackLocRequest :=
    match ubicacion with
    | .coord lat lng => ⟨none, updateParam kwargs1 "query" (.tup (lat, lng))⟩
    | .addr a => ⟨some (quote a), kwargs1⟩
  match fetch req with
  | .error _ => .error .urlError
  | .ok data =>
    match data.resourceSets with
    | [] => .error .indexError
    | rs :: _ =>
      match rs.resources with
      | [] => .error .indexError
      | r :: _ => .ok (r, req)

/-! ## Entities: `Localizacion` and `Ruta` -/

/-- A Python value as returned by the entity accessors: `None`, a
latitude/longitude tuple, or an address string. -/
inductive PyObj where
  | none
  | tup (p : ℚ × ℚ)
  | str (s : String)
deriving DecidableEq

/-- The `Localizacion` object state (src/mapsutils.py:607-661): the flags and
slots written by `__init__` plus `self.data`, which only exists once
`procesar` succeeded.  `imagen`-related state is carried for completeness. -/
structure Localizacion where
  data_procesada : Bool
  imagen_procesada : Bool
  latlng_recibido : Bool
  direccion_recibida : Bool
  lat : Option ℚ
  lng : Option ℚ
  latlng : Option (ℚ × ℚ)
  direccion : Option String
  kwargs : List (String × String)
  data : Option LocData
deriving DecidableEq

/-- The route payload fields the claims rely on, as read back from
`self.data` of a processed `Ruta` (`travelDistance`, `travelDurationTraffic`). -/
structure RutaData where
  travelDistance : ℚ
  travelDurationTraffic : ℚ
deriving DecidableEq

/-- The `Ruta` object state (src/mapsutils.py:755-794). -/
structure Ruta where
  data_procesada : Bool
  imagen_procesada : Bool
  inicio : Localizacion
  final : Localizacion
  paradas : List Localizacion
  kwargs : List (String × String)
  data : Option RutaData
deriving DecidableEq

/-- A provider call issued by an entity method: either
`map_service._rest_localizacion` or `map_service._rest_ruta`. -/
inductive ProvCall where
  | loc (u : Ubicacion) (kwargs : List (String × String))
  | route (inicio final : PyObj) (vias : List PyObj) (kwargs : List (String × String))
deriving DecidableEq

/-- The entity-level view of `map_service._rest_localizacion`: an oracle from
the position and the entity's `kwargs` to either a payload or a raised
exception (`.error ()`). -/
abbrev LocSvc := Ubicacion → List (String × String) → Except Unit LocData

/-- The entity-level view of `map_service._rest_ruta`: start, end and via
arguments exactly as the Python call passes them. -/
abbrev RouteSvc := PyObj → PyObj → List PyObj → List (String × String) → Except Unit RutaData

/-- `Localizacion.__init__` (src/mapsutils.py:612-661).  The
`InvalidInputType` branches (`latlng` not a tuple/list, `direccion` not a
string) are unrepresentable in this typed model.  Note that when both
`latlng` and `direccion` are supplied, only the two `_recibido/_recibida`
flags are set and the `_lat`/`_lng`/`_latlng`/`_direccion` slots keep their
initial `None`. -/
def Localizacion.init (latlng : Option (ℚ × ℚ)) (direccion : Option String)
    (kwargs : List (String × String)) : Except MapError Localizacion :=
  match latlng, direccion with
  | some _, some _ =>
      .ok { data_procesada := false, imagen_procesada := false,
            latlng_recibido := true, direccion_recibida := true,
            lat := none, lng := none, latlng := none, direccion := none,
            kwargs := kwargs, data := none }
  | some p, none =>
      .ok { data_procesada := false, imagen_procesada := false,
            latlng_recibido := true, direccion_recibida := false,
            lat := some p.1, lng := some p.2, latlng := some p, direccion := none,
            kwargs := kwargs, data := none }
  | none, some d =>
      .ok { data_procesada := false, imagen_procesada := false,
            latlng_recibido := false, direccion_recibida := true,
            lat := none, lng := none, latlng := none, direccion := some d,
            kwargs := kwargs, data := none }
  | none, none => .error .faltanArgumentos

/-- `Localizacion.procesar` (src/mapsutils.py:663-699).  The returned triple
is (result, state after the call, provider calls issued).  `_data_procesada`
and `self.data` are only assigned after the REST call returned, so a failed
call leaves the state untouched; the bare `except:` maps every service
exception to `'Error, al procesar REST'`. -/
def Localizacion.procesar (svc : LocSvc) (self : Localizacion) :
    Except MapError LocData × Localizacion × List ProvCall :=
  if self.data_procesada then (.error .yaProcesada, self, [])
  else if self.latlng_recibido && self.direccion_recibida then
    (.error .noEsNecesario, self, [])
  else
    match self.direccion with
    | some d =>
      match svc (.addr d) self.kwargs with
      | .ok data =>
          (.ok data, { self with data_procesada := true, data := some data },
           [.loc (.addr d) self.kwargs])
      | .error _ => (.error .restError, self, [.loc (.addr d) self.kwargs])
    | none =>
      match self.latlng with
      | some p =>
        match svc (.coord p.1 p.2) self.kwargs with
        | .ok data =>
            (.ok data, { self with data_procesada := true, data := some data },
             [.loc (.coord p.1 p.2) self.kwargs])
        | .error _ => (.error .restError, self, [.loc (.coord p.1 p.2) self.kwargs])
      | none => (.error .sinDatos, self, [])

/-- Python value of an optional coordinate slot. -/
def pyOfLatLng : Option (ℚ × ℚ) → PyObj
  | Option.none => .none
  | some p => .tup p

/-- Python value of an optional address slot. -/
def pyOfDireccion : Option String → PyObj
  | Option.none => .none
  | some s => .str s

/-- `Localizacion.obtener_latlng` (src/mapsutils.py:701-712): return
`self._latlng` when the coordinate was received, otherwise process first if
needed and read `tuple(self.data['point']['coordinates'])`. -/
def Localizacion.obtener_latlng (svc : LocSvc) (self : Localizacion) :
    Except MapError PyObj × Localizacion × List ProvCall :=
  if self.latlng_recibido then (.ok (pyOfLatLng self.latlng), self, [])
  else if self.data_procesada then
    match self.data with
    | some d => (.ok (.tup d.coordinates), self, [])
    | Option.none => (.error .attributeError, self, [])
  else
    match Localizacion.procesar svc self with
    | (.error e, st, tr) => (.error e, st, tr)
    | (.ok _, st, tr) =>
      match st.data with
      | some d => (.ok (.tup d.coordinates), st, tr)
      | Option.none => (.error .attributeError, st, tr)

/-- `Localizacion.obtener_direccion` (src/mapsutils.py:714-725): symmetric to
`obtener_latlng`, reading `self.data['address']['formattedAddress']`. -/
def Localizacion.obtener_direccion (svc : LocSvc) (self : Localizacion) :
    Except MapError PyObj × Localizacion × List ProvCall :=
  if self.direccion_recibida then (.ok (pyOfDireccion self.direccion), self, [])
  else if self.data_procesada then
    match self.data with
    | some d => (.ok (.str d.formattedAddress), self, [])
    | Option.none => (.error .attributeError, self, [])
  else
    match Localizacion.procesar svc self with
    | (.error e, st, tr) => (.error e, st, tr)
    | (.ok _, st, tr) =>
      match st.data with
      | some d => (.ok (.str d.formattedAddress), st, tr)
      | Option.none => (.error .attributeError, st, tr)

/-- `Ruta.__init__` (src/mapsutils.py:760-794).  The type checks on `inicio`,
`final` and `paradas` are unrepresentable failures in this typed model. -/
def Ruta.init (inicio final : Localizacion) (paradas : List Localizacion)
    (kwargs : List (String × String)) : Ruta :=
  { data_procesada := false, imagen_procesada := false,
    inicio := inicio, final := final, paradas := paradas,
    kwargs := kwargs, data := none }

/-- The list comprehension `[loc.obtener_latlng() for loc in self._paradas]`
in `Ruta.procesar` (src/mapsutils.py:828): evaluated left to right, each stop
mutated in place; a raised exception keeps the mutations already applied to
earlier stops. -/
def paradasLatLng (lsvc : LocSvc) :
    List Localizacion → Except MapError (List PyObj) × List Localizacion × List ProvCall
  | [] => (.ok [], [], [])
  | l :: ls =>
    match Localizacion.obtener_latlng lsvc l with
    | (.error e, l', tr) => (.error e, l' :: ls, tr)
    | (.ok v, l', tr) =>
      match paradasLatLng lsvc ls with
      | (.error e, ls', tr') => (.error e, l' :: ls', tr ++ tr')
      | (.ok vs, ls', tr') => (.ok (v :: vs), l' :: ls', tr ++ tr')

/-- `Ruta.procesar` (src/mapsutils.py:796-833).  The start/end dependency
checks read the `_latlng_recibido` / `_direccion_recibida` flags of the two
endpoint `Localizacion` objects and raise before any call when neither flag
is set; the `try` block wraps both the via-stop resolution and the route REST
call, collapsing any exception into `'Error, al procesar REST'`. -/
def Ruta.procesar (lsvc : LocSvc) (rsvc : RouteSvc) (self : Ruta) :
    Except MapError RutaData × Ruta × List ProvCall :=
  if self.data_procesada then (.error .yaProcesada, self, [])
  else
    match (if self.inicio.latlng_recibido then Localizacion.obtener_latlng lsvc self.inicio
           else if self.inicio.direccion_recibida then Localizacion.obtener_direccion lsvc self.inicio
           else (.error .inicioNoProcesada, self.inicio, [])) with
    | (.error e, i, tr1) => (.error e, { self with inicio := i }, tr1)
    | (.ok proc_inicio, i, tr1) =>
      match (if self.final.latlng_recibido then Localizacion.obtener_latlng lsvc self.final
             else if self.final.direccion_recibida then Localizacion.obtener_direccion lsvc self.final
             else (.error .finalNoProcesada, self.final, [])) with
      | (.error e, f, tr2) => (.error e, { self with inicio := i, final := f }, tr1 ++ tr2)
      | (.ok proc_final, f, tr2) =>
        match paradasLatLng lsvc self.paradas with
        | (.error _, ps, tr3) =>
            (.error .restError, { self with inicio := i, final := f, paradas := ps },
             tr1 ++ tr2 ++ tr3)
        | (.ok vs, ps, tr3) =>
          match rsvc proc_inicio proc_final vs self.kwargs with
          | .error _ =>
              (.error .restError, { self with inicio := i, final := f, paradas := ps },
               tr1 ++ tr2 ++ tr3 ++ [.route proc_inicio proc_final vs self.kwargs])
          | .ok d =>
              (.ok d,
               { self with
                 inicio := i, final := f, paradas := ps,
                 data_procesada := true, data := some d },
               tr1 ++ tr2 ++ tr3 ++ [.route proc_inicio proc_final vs self.kwargs])

/-- `Ruta.distancia_ruta_bing_kilometros` (src/mapsutils.py:852-862):
process if needed, then read `self.data['travelDistance']`. -/
def Ruta.distancia_ruta_bing_kilometros (lsvc : LocSvc) (rsvc : RouteSvc) (self : Ruta) :
    Except MapError ℚ × Ruta × List ProvCall :=
  if self.data_procesada then
    match self.data with
    | some d => (.ok d.travelDistance, self, [])
    | none => (.error .attributeError, self, [])
  else
    match Ruta.procesar lsvc rsvc self with
    | (.error e, st, tr) => (.error e, st, tr)
    | (.ok _, st, tr) =>
      match st.data with
      | some d => (.ok d.travelDistance, st, tr)
      | none => (.error .attributeError, st, tr)

/-- `Ruta.distancia_ruta_bing_metros` (src/mapsutils.py:864-872):
`self.distancia_ruta_bing_kilometros() * 1000`. -/
def Ruta.distancia_ruta_bing_metros (lsvc : LocSvc) (rsvc : RouteSvc) (self : Ruta) :
    Except MapError ℚ × Ruta × List ProvCall :=
  match Ruta.distancia_ruta_bing_kilometros lsvc rsvc self with
  | (.error e, st, tr) => (.error e, st, tr)
  | (.ok k, st, tr) => (.ok (k * 1000), st, tr)

/-- `Ruta.tiempo_de_viaje_segundos` (src/mapsutils.py:895-905):
process if needed, then read `self.data['travelDurationTraffic']`. -/
def Ruta.tiempo_de_viaje_segundos (lsvc : LocSvc) (rsvc : RouteSvc) (self : Ruta) :
    Except MapError ℚ × Ruta × List ProvCall :=
  if self.data_procesada then
    match self.data with
    | some d => (.ok d.travelDurationTraffic, self, [])
    | none => (.error .attributeError, self, [])
  else
    match Ruta.procesar lsvc rsvc self with
    | (.error e, st, tr) => (.error e, st, tr)
    | (.ok _, st, tr) =>
      match st.data with
      | some d => (.ok d.travelDurationTraffic, st, tr)
      | none => (.error .attributeError, st, tr)

/-- `Ruta.tiempo_de_viaje_minutos` (src/mapsutils.py:907-915):
`self.tiempo_de_viaje_segundos() / 60`. -/
def Ruta.tiempo_de_viaje_minutos (lsvc : LocSvc) (rsvc : RouteSvc) (self : Ruta) :
    Except MapError ℚ × Ruta × List ProvCall :=
  match Ruta.tiempo_de_viaje_segundos lsvc rsvc self with
  | (.error e, st, tr) => (.error e, st, tr)
  | (.ok s, st, tr) => (.ok (s / 60), st, tr)

/-- `Ruta.tiempo_de_viaje_minutos_con_velocidad_constante`
(src/mapsutils.py:878-893): reads nothing from `self` beyond the method
binding, issues no call, and raises when `velocidad_km_h <= 0`. -/
def Ruta.tiempo_de_viaje_minutos_con_velocidad_constante (self : Ruta)
    (distancia_km velocidad_km_h : ℚ) :
    Except MapError ℚ × Ruta × List ProvCall :=
  if velocidad_km_h ≤ 0 then (.error .velocidadInvalida, self, [])
  else (.ok (distancia_km / velocidad_km_h * 60), self, [])

/-! ## Shared concrete sample values for instantiations -/

/-- A location constructed with only a coordinate, as `Localizacion.init
(some (5, -74)) none []` builds it. -/
def locCoordEjemplo : Localizacion :=
  { data_procesada := false, imagen_procesada := false,
    latlng_recibido := true, direccion_recibida := false,
    lat := some 5, lng := some (-74), latlng := some (5, -74),
    direccion := none, kwargs := [], data := none }

/-- A location constructed with only an address, as `Localizacion.init none
(some "Bogotá, Colombia") []` builds it. -/
def locDireccionEjemplo : Localizacion :=
  { data_procesada := false, imagen_procesada := false,
    latlng_recibido := false, direccion_recibida := true,
    lat := none, lng := none, latlng := none,
    direccion := some "Bogotá, Colombia", kwargs := [], data := none }

/-- A location with neither flag set (the state the dependency check of
`Ruta.procesar` guards against). -/
def locSinDatosEjemplo : Localizacion :=
  { data_procesada := false, imagen_procesada := false,
    latlng_recibido := false, direccion_recibida := false,
    lat := none, lng := none, latlng := none,
    direccion := none, kwargs := [], data := none }

/-- A location service oracle that always succeeds. -/
def okLocSvc : LocSvc := fun _ _ => .ok ⟨(1, 2), "Dirección"⟩

/-- A location service oracle that always raises. -/
def failLocSvc : LocSvc := fun _ _ => .error ()

/-- A route service oracle that always succeeds. -/
def okRouteSvc : RouteSvc := fun _ _ _ _ => .ok ⟨15, 1200⟩

/-! ## C6: coordinate token encoding and its range validation -/

/-- **C6**: for `lat ∈ [-90,90]` and `lng ∈ [-180,180]`,
`_tuple_LatLng_to_string` succeeds and returns exactly
`str(lat) + ',' + str(lng)` (the direct rendering of the two numbers, no
rounding); for any value outside these ranges it raises the
`InvalidPosition` `ValueError` — and, being a pure function, it does so
before any network attempt. -/
theorem tuple_LatLng_to_string_spec (str : ℚ → String) (lat lng : ℚ) :
    (-90 ≤ lat ∧ lat ≤ 90 ∧ -180 ≤ lng ∧ lng ≤ 180 →
      tuple_LatLng_to_string str (lat, lng) = .ok (str lat ++ "," ++ str lng)) ∧
    (¬(-90 ≤ lat ∧ lat ≤ 90 ∧ -180 ≤ lng ∧ lng ≤ 180) →
      ∃ msg, tuple_LatLng_to_string str (lat, lng) = .error (.invalidPosition msg)) := by
  unfold tuple_LatLng_to_string
  constructor
  · rintro ⟨h1, h2, h3, h4⟩
    rw [if_neg (by push_neg; exact ⟨h2, h1⟩), if_neg (by push_neg; exact ⟨h4, h3⟩)]
  · intro h
    by_cases hla : 90 < lat ∨ lat < -90
    · exact ⟨"Latitud inválida", by rw [if_pos hla]⟩
    · have hlo : 180 < lng ∨ lng < -180 := by
        by_contra hlo
        push_neg at hla hlo
        exact h ⟨hla.2, hla.1, hlo.2, hlo.1⟩
      exact ⟨"Longitud inválida", by rw [if_neg hla, if_pos hlo]⟩

/-- Witness for C6: the in-range coordinate `(4.6, -74.1)` encodes to
`str(4.6) + ',' + str(-74.1)`, and latitude `91` is rejected. -/
theorem tuple_LatLng_to_string_spec_witness :
    tuple_LatLng_to_string toString (46/10, -741/10)
        = .ok (toString (46/10 : ℚ) ++ "," ++ toString (-741/10 : ℚ)) ∧
    ∃ msg, tuple_LatLng_to_string toString (91, 0) = .error (.invalidPosition msg) :=
  ⟨(tuple_LatLng_to_string_spec toString (46/10) (-741/10)).1 (by norm_num),
   (tuple_LatLng_to_string_spec toString 91 0).2 (by norm_num)⟩

/-! ## C9: constant-speed travel time -/

/-- **C9**: `tiempo_de_viaje_minutos_con_velocidad_constante` fails with the
`InvalidSpeed` `ValueError` if and only if `velocidad_km_h ≤ 0`; for a
positive speed it returns `(distancia_km / velocidad_km_h) * 60`; and for
every input it leaves the entity state unchanged and issues no provider
call (it neither reads nor writes the resolution state). -/
theorem tiempo_de_viaje_minutos_con_velocidad_constante_spec (self : Ruta)
    (distancia_km velocidad_km_h : ℚ) :
    ((Ruta.tiempo_de_viaje_minutos_con_velocidad_constante self distancia_km
        velocidad_km_h).1 = .error .velocidadInvalida ↔ velocidad_km_h ≤ 0) ∧
    (0 < velocidad_km_h →
      (Ruta.tiempo_de_viaje_minutos_con_velocidad_constante self distancia_km
        velocidad_km_h).1 = .ok (distancia_km / velocidad_km_h * 60)) ∧
    (Ruta.tiempo_de_viaje_minutos_con_velocidad_constante self distancia_km
        velocidad_km_h).2.1 = self ∧
    (Ruta.tiempo_de_viaje_minutos_con_velocidad_constante self distancia_km
        velocidad_km_h).2.2 = [] := by
  unfold Ruta.tiempo_de_viaje_minutos_con_velocidad_constante
  by_cases h : velocidad_km_h ≤ 0
  · simp [h]
  · simp [h]

/-- Witness for C9: at distance 90 km and speed 60 km/h the method returns
90 minutes, and at speed 0 it raises `InvalidSpeed`. -/
theorem tiempo_de_viaje_minutos_con_velocidad_constante_spec_witness :
    (Ruta.tiempo_de_viaje_minutos_con_velocidad_constante
        (Ruta.init locCoordEjemplo locCoordEjemplo [] []) 90 60).1 = .ok 90 ∧
    (Ruta.tiempo_de_viaje_minutos_con_velocidad_constante
        (Ruta.init locCoordEjemplo locCoordEjemplo [] []) 90 0).1
      = .error .velocidadInvalida := by
  constructor
  · have h := (tiempo_de_viaje_minutos_con_velocidad_constante_spec
      (Ruta.init locCoordEjemplo locCoordEjemplo [] []) 90 60).2.1 (by norm_num)
    rw [h]; norm_num
  · exact (tiempo_de_viaje_minutos_con_velocidad_constante_spec
      (Ruta.init locCoordEjemplo locCoordEjemplo [] []) 90 0).1.mpr (by norm_num)

/-! ## C5: waypoint encoding -/

/-- Tail of the waypoint loop: positions `k` to `N-1` of the stop list are
`viaWayPoint` entries and the final position `N` is a `wayPoint` entry. -/
theorem viajes_enumFrom_spec (N : ℕ) (e : String) :
    ∀ (vs : List String) (k : ℕ), 2 ≤ k → k + vs.length = N →
      ((vs ++ [e]).enumFrom k).map (wayPointEntry N) =
        (vs.enumFrom k).map (fun p => ("viaWayPoint." ++ toString p.1, p.2))
          ++ [("wayPoint." ++ toString N, e)]
  | [], k, _, hN => by
      subst hN
      simp [List.enumFrom, wayPointEntry]
  | v :: vs, k, h2, hN => by
      have hk1 : k ≠ 1 := by omega
      have hkN : k ≠ N := by simp only [List.length_cons] at hN; omega
      have ih := viajes_enumFrom_spec N e vs (k + 1) (by omega)
        (by simp only [List.length_cons] at hN; omega)
      simp only [List.cons_append, List.enumFrom, List.map_cons, List.append_eq]
      rw [ih]
      simp [wayPointEntry, hk1, hkN]

/-- The full `viajes` dict for a stop list `start :: vias ++ [end]`:
`wayPoint.1` binds the start token, `viaWayPoint.k` (for `k = 2 .. m+1`)
binds the token of `vias[k-2]`, and `wayPoint.(m+2)` binds the end token. -/
theorem viajes_dict_cons (s e : String) (vs : List String) :
    viajes_dict (s :: vs ++ [e]) =
      ("wayPoint.1", s)
        :: ((vs.enumFrom 2).map (fun p => ("viaWayPoint." ++ toString p.1, p.2))
            ++ [("wayPoint." ++ toString (vs.length + 2), e)]) := by
  have h := viajes_enumFrom_spec (vs.length + 2) e vs 2 (le_refl 2) (by omega)
  have hlen : (s :: vs ++ [e]).length = vs.length + 2 := by simp
  show ((List.range' 1 (s :: vs ++ [e]).length).zip (s :: vs ++ [e])).map
      (wayPointEntry (s :: vs ++ [e]).length) = _
  rw [← List.enumFrom_eq_zip_range', hlen]
  simp only [List.cons_append, List.enumFrom, List.map_cons, List.append_eq]
  rw [h]
  congr 1
  simp only [wayPointEntry, true_or, if_pos]
  exact congrArg (fun t => (t, s)) (by decide)

/-- A successful `via_tokens` run produces as many tokens as via stops. -/
theorem length_of_via_tokens_ok (str : ℚ → String) :
    ∀ (l : List Ubicacion) (r : List String), via_tokens str l = .ok r → r.length = l.length
  | [], r, h => by
      simp only [via_tokens, Except.ok.injEq] at h
      simp [← h]
  | u :: l, r, h => by
      rw [via_tokens] at h
      cases hf : posicion_a_string_url str u with
      | error e => simp [hf] at h
      | ok t =>
        cases hl : via_tokens str l with
        | error e => simp [hf, hl] at h
        | ok ts =>
          simp only [hf, hl, Except.ok.injEq] at h
          subst h
          simp [length_of_via_tokens_ok str l ts hl]

/-- **C5**: for tokenised `start`, `end` and an `m`-element `vias` list, the
stop list built by `_rest_ruta` is `token(start) :: viaTokens ++
[token(end)]` and the `viajes` dict binds exactly the keys `wayPoint.1`
(to the start token), `viaWayPoint.k` for `k = 2 .. m+1` (to the token of
`vias[k-2]`, here expressed through `enumFrom 2`), and `wayPoint.(m+2)`
(to the end token); for `m = 0` the middle map is empty, leaving only
`wayPoint.1` and `wayPoint.2`. -/
theorem rest_ruta_waypoint_keys (str : ℚ → String) (inicio final : Ubicacion)
    (via : List Ubicacion) (s e : String) (vs : List String)
    (hi : posicion_a_string_url str inicio = .ok s)
    (hv : via_tokens str via = .ok vs)
    (hf : posicion_a_string_url str final = .ok e) :
    rest_ruta_paradas str inicio final via = .ok (s :: vs ++ [e]) ∧
    vs.length = via.length ∧
    viajes_dict (s :: vs ++ [e]) =
      ("wayPoint.1", s)
        :: ((vs.enumFrom 2).map (fun p => ("viaWayPoint." ++ toString p.1, p.2))
            ++ [("wayPoint." ++ toString (vs.length + 2), e)]) := by
  refine ⟨?_, length_of_via_tokens_ok str via vs hv, viajes_dict_cons s e vs⟩
  simp [rest_ruta_paradas, hi, hv, hf]

/-- Witness for C5: start `(1,2)`, one via stop `"A"`, end `"B"` produce the
keys `wayPoint.1`, `viaWayPoint.2`, `wayPoint.3`, bound in order. -/
theorem rest_ruta_waypoint_keys_witness :
    rest_ruta_paradas toString (.coord 1 2) (.addr "B") [.addr "A"]
        = .ok ["1,2", "A", "B"] ∧
    viajes_dict ["1,2", "A", "B"]
        = [("wayPoint.1", "1,2"), ("viaWayPoint.2", "A"), ("wayPoint.3", "B")] := by
  have h := rest_ruta_waypoint_keys toString (.coord 1 2) (.addr "B") [.addr "A"]
    "1,2" "B" ["A"] (by decide) (by decide) (by decide)
  refine ⟨h.1, ?_⟩
  rw [show (["1,2", "A", "B"] : List String) = "1,2" :: ["A"] ++ ["B"] from rfl, h.2.2]
  decide

/-! ## C4: primary-first resolution, fallback only on empty primary result -/

/-- **C4**: whenever the primary (Nominatim) lookup for the input returns a
result, `OpenService._rest_localizacion` returns exactly that result's
coordinates and address as the payload, and the fallback Bing request slot
of the outcome is `none` — no fallback request is built or issued for that
resolution, whatever the fetch oracle would answer. -/
theorem rest_localizacion_primary_hit (reverse : ℚ × ℚ → Option GeoResult)
    (geocode : String → Option GeoResult)
    (fetch : FallbackLocRequest → Except Unit BingResponse)
    (api_key : String) (quote : String → String)
    (ubicacion : Ubicacion) (kwargs : List (String × PyParam)) (res : GeoResult)
    (h : primaryLookup reverse geocode ubicacion = some res) :
    OpenService.rest_localizacion reverse geocode fetch api_key quote ubicacion kwargs
      = .ok (⟨(res.latitude, res.longitude), res.address⟩, none) := by
  unfold OpenService.rest_localizacion
  rw [h]

/-- Witness for C4: a primary geocoder that answers `"Bogotá, Colombia"`
with `(4.60971, -74.08175)` short-circuits the fallback even though the
fetch oracle would have answered. -/
theorem rest_localizacion_primary_hit_witness :
    OpenService.rest_localizacion
        (fun _ => none)
        (fun _ => some ⟨5, -74, "Bogotá, Colombia"⟩)
        (fun _ => .ok ⟨[⟨[⟨(10, 10), "other"⟩]⟩]⟩) "KEY" (fun a => a)
        (.addr "Bogotá, Colombia") []
      = .ok (⟨(5, -74), "Bogotá, Colombia"⟩, none) :=
  rest_localizacion_primary_hit (fun _ => none)
    (fun _ => some ⟨5, -74, "Bogotá, Colombia"⟩)
    (fun _ => .ok ⟨[⟨[⟨(10, 10), "other"⟩]⟩]⟩) "KEY" (fun a => a)
    (.addr "Bogotá, Colombia") [] ⟨5, -74, "Bogotá, Colombia"⟩
    (by decide)

/-! ## C2: shape of the fallback location query (code bug)

The claim (and §4.2/§4.3 of the spec, and the example URLs in the source's
own comments at src/mapsutils.py:164-165, 173-174 and 414-415, 423-424)
says a free-text address is sent as a `query=<address>` parameter and a
coordinate as a path-embedded `<lat>,<lng>` segment.  The code does the
opposite: the tuple/list branch stores the raw coordinate tuple under
`'query'` (src/mapsutils.py:163-170) and the string branch percent-encodes
the address into the URL path (src/mapsutils.py:172-177); the same swap is
in `BingService._rest_localizacion` (src/mapsutils.py:413-427). -/

/-- **C2** (evaluation at the failing inputs): when the primary provider
returns no result, an address input produces a fallback request whose path
segment is the quoted address and whose params carry no `query` key at all,
while a coordinate input produces no path segment and the raw tuple under
`query` — the exact opposite of the claimed construction.  The
`resourceSets[0].resources[0]` unwrapping of the response is as claimed. -/
theorem rest_localizacion_fallback_shape :
    OpenService.rest_localizacion (fun _ => none) (fun _ => none)
        (fun _ => .ok ⟨[⟨[⟨(1, 1), "R"⟩]⟩]⟩) "KEY" (fun a => "q(" ++ a ++ ")")
        (.addr "Bogotá, Colombia") []
      = .ok (⟨(1, 1), "R"⟩,
             some ⟨some "q(Bogotá, Colombia)", [("key", .str "KEY")]⟩) ∧
    OpenService.rest_localizacion (fun _ => none) (fun _ => none)
        (fun _ => .ok ⟨[⟨[⟨(1, 1), "R"⟩]⟩]⟩) "KEY" (fun a => "q(" ++ a ++ ")")
        (.coord 4 (-74)) []
      = .ok (⟨(1, 1), "R"⟩,
             some ⟨none, [("key", .str "KEY"), ("query", .tup (4, -74))]⟩) ∧
    BingService.rest_localizacion
        (fun _ => .ok ⟨[⟨[⟨(1, 1), "R"⟩]⟩]⟩) "KEY" (fun a => "q(" ++ a ++ ")")
        (.addr "Bogotá, Colombia") []
      = .ok (⟨(1, 1), "R"⟩, ⟨some "q(Bogotá, Colombia)", [("key", .str "KEY")]⟩) := by
  refine ⟨?_, ?_, ?_⟩ <;> decide

/-! ## Entity-layer lemmas -/

/-- A failed `Localizacion.procesar` leaves the location state exactly as it
was (in particular still unprocessed): `_data_procesada` and `self.data` are
only assigned after the REST call returns. -/
theorem Localizacion.procesar_error_state (svc : LocSvc) (self : Localizacion)
    {e : MapError} {st : Localizacion} {tr : List ProvCall}
    (h : Localizacion.procesar svc self = (.error e, st, tr)) : st = self := by
  unfold Localizacion.procesar at h
  split at h
  · simp_all
  · split at h
    · simp_all
    · split at h
      · split at h <;> simp_all
      · split at h
        · split at h <;> simp_all
        · simp_all

/-- A successful `Localizacion.procesar` marks the state processed and caches
the payload. -/
theorem Localizacion.procesar_ok_state (svc : LocSvc) (self : Localizacion)
    {d : LocData} {st : Localizacion} {tr : List ProvCall}
    (h : Localizacion.procesar svc self = (.ok d, st, tr)) :
    st.data_procesada = true ∧ st.data = some d := by
  unfold Localizacion.procesar at h
  split at h
  · simp_all
  · split at h
    · simp_all
    · split at h
      · split at h
        · simp only [Prod.mk.injEq, Except.ok.injEq] at h
          obtain ⟨h1, h2, h3⟩ := h
          subst h2
          simp [h1]
        · simp_all
      · split at h
        · split at h
          · simp only [Prod.mk.injEq, Except.ok.injEq] at h
            obtain ⟨h1, h2, h3⟩ := h
            subst h2
            simp [h1]
          · simp_all
        · simp_all

/-- Every provider call issued by `Localizacion.procesar` is a location call. -/
theorem Localizacion.procesar_calls_loc (svc : LocSvc) (self : Localizacion)
    {r : Except MapError LocData} {st : Localizacion} {tr : List ProvCall}
    (h : Localizacion.procesar svc self = (r, st, tr)) :
    ∀ c ∈ tr, ∃ u kw, c = .loc u kw := by
  unfold Localizacion.procesar at h
  split at h
  · simp_all
  · split at h
    · simp_all
    · split at h
      · split at h <;>
        · simp only [Prod.mk.injEq] at h
          obtain ⟨h1, h2, h3⟩ := h
          subst h3
          intro c hc
          simp only [List.mem_singleton] at hc
          subst hc
          exact ⟨_, _, rfl⟩
      · split at h
        · split at h <;>
          · simp only [Prod.mk.injEq] at h
            obtain ⟨h1, h2, h3⟩ := h
            subst h3
            intro c hc
            simp only [List.mem_singleton] at hc
            subst hc
            exact ⟨_, _, rfl⟩
        · simp_all

/-- On a location whose coordinate was received, `obtener_latlng` is pure:
it returns the stored `_latlng` slot, does not touch the state and issues no
call. -/
theorem Localizacion.obtener_latlng_recibido (svc : LocSvc) (self : Localizacion)
    (h : self.latlng_recibido = true) :
    Localizacion.obtener_latlng svc self = (.ok (pyOfLatLng self.latlng), self, []) := by
  simp [Localizacion.obtener_latlng, h]

/-- On a location whose address was received, `obtener_direccion` is pure. -/
theorem Localizacion.obtener_direccion_recibida (svc : LocSvc) (self : Localizacion)
    (h : self.direccion_recibida = true) :
    Localizacion.obtener_direccion svc self = (.ok (pyOfDireccion self.direccion), self, []) := by
  simp [Localizacion.obtener_direccion, h]

/-- A successful `obtener_latlng` never produces an address string (it reads
`_latlng` — a tuple or `None` — or `data['point']['coordinates']`), and it
leaves the location with a received coordinate or in processed state. -/
theorem Localizacion.obtener_latlng_ok_shape (svc : LocSvc) (self : Localizacion)
    {v : PyObj} {st : Localizacion} {tr : List ProvCall}
    (h : Localizacion.obtener_latlng svc self = (.ok v, st, tr)) :
    (∀ s, v ≠ .str s) ∧ (st.latlng_recibido = true ∨ st.data_procesada = true) := by
  unfold Localizacion.obtener_latlng at h
  split at h
  case isTrue hrec =>
    simp only [Prod.mk.injEq, Except.ok.injEq] at h
    obtain ⟨h1, h2, h3⟩ := h
    subst h2
    refine ⟨?_, Or.inl hrec⟩
    intro s
    cases hl : self.latlng <;> rw [hl] at h1 <;> simp [pyOfLatLng] at h1 <;> simp [← h1]
  case isFalse hrec =>
    split at h
    case isTrue hproc =>
      split at h
      · simp only [Prod.mk.injEq, Except.ok.injEq] at h
        obtain ⟨h1, h2, h3⟩ := h
        subst h2
        exact ⟨fun s => by simp [← h1], Or.inr hproc⟩
      · simp_all
    case isFalse hproc =>
      split at h
      · simp_all
      · rename_i d' st' tr' heq
        split at h
        · simp only [Prod.mk.injEq, Except.ok.injEq] at h
          obtain ⟨h1, h2, h3⟩ := h
          subst h2
          exact ⟨fun s => by simp [← h1],
            Or.inr (Localizacion.procesar_ok_state svc self heq).1⟩
        · simp_all

/-- Every provider call issued by `obtener_latlng` is a location call. -/
theorem Localizacion.obtener_latlng_calls_loc (svc : LocSvc) (self : Localizacion)
    {r : Except MapError PyObj} {st : Localizacion} {tr : List ProvCall}
    (h : Localizacion.obtener_latlng svc self = (r, st, tr)) :
    ∀ c ∈ tr, ∃ u kw, c = .loc u kw := by
  unfold Localizacion.obtener_latlng at h
  split at h
  · simp only [Prod.mk.injEq] at h
    obtain ⟨h1, h2, h3⟩ := h
    subst h3
    simp
  · split at h
    · split at h <;>
      · simp only [Prod.mk.injEq] at h
        obtain ⟨h1, h2, h3⟩ := h
        subst h3
        simp
    · split at h
      · rename_i e' st' tr' heq
        simp only [Prod.mk.injEq] at h
        obtain ⟨h1, h2, h3⟩ := h
        subst h3
        exact Localizacion.procesar_calls_loc svc self heq
      · rename_i d' st' tr' heq
        split at h <;>
        · simp only [Prod.mk.injEq] at h
          obtain ⟨h1, h2, h3⟩ := h
          subst h3
          exact Localizacion.procesar_calls_loc svc self heq

/-- Every provider call issued while resolving the via stops is a location
call. -/
theorem paradasLatLng_calls_loc (lsvc : LocSvc) :
    ∀ (ls : List Localizacion) (r : Except MapError (List PyObj))
      (ps : List Localizacion) (tr : List ProvCall),
      paradasLatLng lsvc ls = (r, ps, tr) → ∀ c ∈ tr, ∃ u kw, c = .loc u kw
  | [], r, ps, tr, h => by
      simp only [paradasLatLng, Prod.mk.injEq] at h
      obtain ⟨_, _, h3⟩ := h
      subst h3
      simp
  | l :: ls, r, ps, tr, h => by
      rw [paradasLatLng] at h
      rcases hob : Localizacion.obtener_latlng lsvc l with ⟨rl, l', trl⟩
      rw [hob] at h
      cases rl with
      | error e =>
        simp only [Prod.mk.injEq] at h
        obtain ⟨_, _, h3⟩ := h
        subst h3
        exact Localizacion.obtener_latlng_calls_loc lsvc l hob
      | ok v =>
        rcases hrec : paradasLatLng lsvc ls with ⟨rr, ps', tr'⟩
        rw [hrec] at h
        have hl := Localizacion.obtener_latlng_calls_loc lsvc l hob
        have ih := paradasLatLng_calls_loc lsvc ls rr ps' tr' hrec
        cases rr with
        | error e =>
          simp only [Prod.mk.injEq] at h
          obtain ⟨_, _, h3⟩ := h
          subst h3
          intro c hc
          rcases List.mem_append.mp hc with hc | hc
          · exact hl c hc
          · exact ih c hc
        | ok vs' =>
          simp only [Prod.mk.injEq] at h
          obtain ⟨_, _, h3⟩ := h
          subst h3
          intro c hc
          rcases List.mem_append.mp hc with hc | hc
          · exact hl c hc
          · exact ih c hc

/-- A successful via-stop resolution returns only tuple/`None` tokens (never
an address string), leaves every stop with a received coordinate or in
processed state, and returns one token per stop. -/
theorem paradasLatLng_ok_shape (lsvc : LocSvc) :
    ∀ (ls : List Localizacion) (vs : List PyObj) (ps : List Localizacion)
      (tr : List ProvCall), paradasLatLng lsvc ls = (.ok vs, ps, tr) →
      (∀ v ∈ vs, ∀ s, v ≠ .str s) ∧
      (∀ p ∈ ps, p.latlng_recibido = true ∨ p.data_procesada = true) ∧
      vs.length = ls.length
  | [], vs, ps, tr, h => by
      simp only [paradasLatLng, Prod.mk.injEq, Except.ok.injEq] at h
      obtain ⟨h1, h2, _⟩ := h
      subst h1
      subst h2
      simp
  | l :: ls, vs, ps, tr, h => by
      rw [paradasLatLng] at h
      rcases hob : Localizacion.obtener_latlng lsvc l with ⟨rl, l', trl⟩
      rw [hob] at h
      cases rl with
      | error e => simp at h
      | ok v =>
        rcases hrec : paradasLatLng lsvc ls with ⟨rr, ps', tr'⟩
        rw [hrec] at h
        cases rr with
        | error e => simp at h
        | ok vs' =>
          simp only [Prod.mk.injEq, Except.ok.injEq] at h
          obtain ⟨h1, h2, _⟩ := h
          subst h1
          subst h2
          have hsh := Localizacion.obtener_latlng_ok_shape lsvc l hob
          have ih := paradasLatLng_ok_shape lsvc ls vs' ps' tr' hrec
          refine ⟨?_, ?_, by simp [ih.2.2]⟩
          · intro w hw s
            rcases List.mem_cons.mp hw with hws | hws
            · subst hws; exact hsh.1 s
            · exact ih.1 w hws s
          · intro p hp
            rcases List.mem_cons.mp hp with hps | hps
            · subst hps; exact hsh.2
            · exact ih.2.1 p hps

/-- The endpoint step of `Ruta.procesar` (the `_latlng_recibido` /
`_direccion_recibida` dispatch for `inicio` or `final`) never mutates the
endpoint location and never issues a call: the accessors are only invoked
under the flag that makes them pure. -/
theorem Ruta.paso_inv (lsvc : LocSvc) (l : Localizacion) (err : MapError)
    {res : Except MapError PyObj} {l' : Localizacion} {tr : List ProvCall}
    (h : (if l.latlng_recibido then Localizacion.obtener_latlng lsvc l
          else if l.direccion_recibida then Localizacion.obtener_direccion lsvc l
          else (.error err, l, [])) = (res, l', tr)) :
    l' = l ∧ tr = [] := by
  by_cases h1 : l.latlng_recibido
  · rw [if_pos h1, Localizacion.obtener_latlng_recibido lsvc l h1] at h
    simp only [Prod.mk.injEq] at h
    exact ⟨h.2.1.symm, h.2.2.symm⟩
  · rw [if_neg h1] at h
    by_cases h2 : l.direccion_recibida
    · rw [if_pos h2, Localizacion.obtener_direccion_recibida lsvc l h2] at h
      simp only [Prod.mk.injEq] at h
      exact ⟨h.2.1.symm, h.2.2.symm⟩
    · rw [if_neg h2] at h
      simp only [Prod.mk.injEq] at h
      exact ⟨h.2.1.symm, h.2.2.symm⟩

/-- Characterization of `Ruta.procesar` used by the claims: the start and
end entities are returned unchanged; an error leaves the route's resolution
fields untouched; a success marks the route processed, caches the payload
and records a route call whose via tokens come from a successful via-stop
resolution; and every route call in the trace carries via tokens from such a
resolution, whose output becomes the new `paradas`. -/
theorem Ruta.procesar_spec (lsvc : LocSvc) (rsvc : RouteSvc) (self : Ruta)
    (r : Except MapError RutaData) (st : Ruta) (tr : List ProvCall)
    (h : Ruta.procesar lsvc rsvc self = (r, st, tr)) :
    st.inicio = self.inicio ∧ st.final = self.final ∧
    (∀ e, r = .error e → st.data_procesada = self.data_procesada ∧ st.data = self.data) ∧
    (∀ d, r = .ok d → st.data_procesada = true ∧ st.data = some d ∧
      ∃ i f vs kw ps tr3, ProvCall.route i f vs kw ∈ tr ∧
        paradasLatLng lsvc self.paradas = (.ok vs, ps, tr3) ∧ st.paradas = ps) ∧
    (∀ i f vs kw, ProvCall.route i f vs kw ∈ tr →
      ∃ ps tr3, paradasLatLng lsvc self.paradas = (.ok vs, ps, tr3) ∧ st.paradas = ps) := by
  unfold Ruta.procesar at h
  split at h
  · simp only [Prod.mk.injEq] at h
    obtain ⟨h1, h2, h3⟩ := h
    subst h2
    subst h3
    refine ⟨rfl, rfl, fun e _ => ⟨rfl, rfl⟩, fun d hd => by simp [← h1] at hd, ?_⟩
    intro i f vs kw hm
    simp at hm
  · rename_i hdp
    split at h
    · rename_i e1 i1 tr1 heq1
      obtain ⟨hi1, htr1⟩ := Ruta.paso_inv lsvc self.inicio _ heq1
      subst hi1
      subst htr1
      simp only [Prod.mk.injEq] at h
      obtain ⟨h1, h2, h3⟩ := h
      subst h2
      subst h3
      refine ⟨rfl, rfl, fun e _ => ⟨rfl, rfl⟩, fun d hd => by simp [← h1] at hd, ?_⟩
      intro i f vs kw hm
      simp at hm
    · rename_i pi1 i1 tr1 heq1
      obtain ⟨hi1, htr1⟩ := Ruta.paso_inv lsvc self.inicio _ heq1
      subst hi1
      subst htr1
      split at h
      · rename_i e2 f2 tr2 heq2
        obtain ⟨hf2, htr2⟩ := Ruta.paso_inv lsvc self.final _ heq2
        subst hf2
        subst htr2
        simp only [Prod.mk.injEq] at h
        obtain ⟨h1, h2, h3⟩ := h
        subst h2
        subst h3
        refine ⟨rfl, rfl, fun e _ => ⟨rfl, rfl⟩, fun d hd => by simp [← h1] at hd, ?_⟩
        intro i f vs kw hm
        simp at hm
      · rename_i pf2 f2 tr2 heq2
        obtain ⟨hf2, htr2⟩ := Ruta.paso_inv lsvc self.final _ heq2
        subst hf2
        subst htr2
        split at h
        · rename_i e3 ps3 tr3 heq3
          simp only [Prod.mk.injEq] at h
          obtain ⟨h1, h2, h3⟩ := h
          subst h2
          subst h3
          refine ⟨rfl, rfl, fun e _ => ⟨rfl, rfl⟩, fun d hd => by simp [← h1] at hd, ?_⟩
          intro i f vs kw hm
          simp only [List.nil_append] at hm
          rcases (paradasLatLng_calls_loc lsvc self.paradas _ _ _ heq3 _ hm) with ⟨u, kw', hc⟩
          exact absurd hc (by simp)
        · rename_i vs3 ps3 tr3 heq3
          split at h
          · rename_i u4 heq4
            simp only [Prod.mk.injEq] at h
            obtain ⟨h1, h2, h3⟩ := h
            subst h2
            subst h3
            refine ⟨rfl, rfl, fun e _ => ⟨rfl, rfl⟩, fun d hd => by simp [← h1] at hd, ?_⟩
            intro i f vs kw hm
            simp only [List.nil_append] at hm
            rcases List.mem_append.mp hm with hm | hm
            · rcases (paradasLatLng_calls_loc lsvc self.paradas _ _ _ heq3 _ hm) with ⟨u, kw', hc⟩
              exact absurd hc (by simp)
            · simp only [List.mem_singleton] at hm
              cases hm
              exact ⟨ps3, tr3, heq3, rfl⟩
          · rename_i d4 heq4
            simp only [Prod.mk.injEq] at h
            obtain ⟨h1, h2, h3⟩ := h
            subst h2
            subst h3
            refine ⟨rfl, rfl, ?_, ?_, ?_⟩
            · intro e he
              rw [← h1] at he
              simp at he
            · intro d hd
              rw [← h1] at hd
              simp only [Except.ok.injEq] at hd
              subst hd
              refine ⟨rfl, rfl, pi1, pf2, vs3, self.kwargs, ps3, tr3, ?_, heq3, rfl⟩
              simp
            · intro i f vs kw hm
              simp only [List.nil_append] at hm
              rcases List.mem_append.mp hm with hm | hm
              · rcases (paradasLatLng_calls_loc lsvc self.paradas _ _ _ heq3 _ hm) with ⟨u, kw', hc⟩
                exact absurd hc (by simp)
              · simp only [List.mem_singleton] at hm
                cases hm
                exact ⟨ps3, tr3, heq3, rfl⟩

/-! ## C1: resolve-once semantics (corrected) -/

/-- Counterexample to **C1** as stated: on an address-only location whose
first `procesar` failed (provider raised), the state is unchanged — still
unprocessed — and a second `procesar` call does **not** fail with
`AlreadyResolved`: it re-issues the provider call and, with the provider now
healthy, succeeds.  A failed resolution is therefore not terminal and the
`AlreadyResolved` guard only fires after a *successful* first call. -/
theorem procesar_retry_counterexample :
    Localizacion.procesar failLocSvc locDireccionEjemplo
      = (.error .restError, locDireccionEjemplo,
         [.loc (.addr "Bogotá, Colombia") []]) ∧
    (Localizacion.procesar okLocSvc locDireccionEjemplo).1
      = .ok ⟨(1, 2), "Dirección"⟩ := by
  decide

/-- **C1** (amended): a second `resolve()` fails with `AlreadyResolved`
exactly when the first call succeeded; after a *failed* first call the
entity's resolution state is unchanged (`Localizacion`: the whole state;
`Ruta`: the processed flag and cached payload — via stops may have been
mutated), so the entity remains unresolved and a later call retries the
provider instead of failing with `AlreadyResolved`. -/
theorem procesar_second_call_spec (svc svc' lsvc lsvc' : LocSvc)
    (rsvc rsvc' : RouteSvc) (self : Localizacion) (ruta : Ruta) :
    (∀ d st tr, Localizacion.procesar svc self = (.ok d, st, tr) →
        (Localizacion.procesar svc' st).1 = .error .yaProcesada) ∧
    (∀ e st tr, Localizacion.procesar svc self = (.error e, st, tr) → st = self) ∧
    (∀ d st tr, Ruta.procesar lsvc rsvc ruta = (.ok d, st, tr) →
        (Ruta.procesar lsvc' rsvc' st).1 = .error .yaProcesada) ∧
    (∀ e st tr, Ruta.procesar lsvc rsvc ruta = (.error e, st, tr) →
        st.data_procesada = ruta.data_procesada ∧ st.data = ruta.data) := by
  refine ⟨?_, ?_, ?_, ?_⟩
  · intro d st tr h
    have hp := (Localizacion.procesar_ok_state svc self h).1
    simp [Localizacion.procesar, hp]
  · intro e st tr h
    exact Localizacion.procesar_error_state svc self h
  · intro d st tr h
    have hp := ((Ruta.procesar_spec lsvc rsvc ruta _ _ _ h).2.2.2.1 d rfl).1
    simp [Ruta.procesar, hp]
  · intro e st tr h
    exact (Ruta.procesar_spec lsvc rsvc ruta _ _ _ h).2.2.1 e rfl

/-- The state of `locDireccionEjemplo` after a successful resolution by
`okLocSvc`. -/
def locDireccionResuelto : Localizacion :=
  { locDireccionEjemplo with data_procesada := true, data := some ⟨(1, 2), "Dirección"⟩ }

/-- A coordinate-to-coordinate route with no via stops. -/
def rutaCoordEjemplo : Ruta := Ruta.init locCoordEjemplo locCoordEjemplo [] []

/-- The state of `rutaCoordEjemplo` after a successful resolution by
`okRouteSvc`. -/
def rutaCoordResuelta : Ruta :=
  { rutaCoordEjemplo with data_procesada := true, data := some ⟨15, 1200⟩ }

/-- Witness for C1 (amended): after a successful first `procesar`, a second
call on each entity kind raises `AlreadyResolved`. -/
theorem procesar_second_call_spec_witness :
    (Localizacion.procesar failLocSvc locDireccionResuelto).1 = .error .yaProcesada ∧
    (Ruta.procesar failLocSvc okRouteSvc rutaCoordResuelta).1 = .error .yaProcesada := by
  have h := procesar_second_call_spec okLocSvc failLocSvc okLocSvc failLocSvc
    okRouteSvc okRouteSvc locDireccionEjemplo rutaCoordEjemplo
  exact ⟨h.1 ⟨(1, 2), "Dirección"⟩ locDireccionResuelto
           [.loc (.addr "Bogotá, Colombia") []] (by decide),
         h.2.2.1 ⟨15, 1200⟩ rutaCoordResuelta
           [.route (.tup (5, -74)) (.tup (5, -74)) [] []] (by decide)⟩

/-! ## C3: entity constructed with both coordinate and address (code bug) -/

/-- The state `Localizacion.__init__` builds when both `latlng` and
`direccion` are supplied: both flags set, all value slots still `None`. -/
def locAmbosEjemplo : Localizacion :=
  { data_procesada := false, imagen_procesada := false,
    latlng_recibido := true, direccion_recibida := true,
    lat := none, lng := none, latlng := none, direccion := none,
    kwargs := [], data := none }

/-- **C3**, evaluated on the code: a location constructed with both the
coordinate `(5, -74)` and the address `"Bogotá, Colombia"` issues no
provider call from either accessor and is left unchanged by them — but both
accessors return Python `None`, not the supplied coordinate/address, because
`__init__` sets only the two received-flags and never stores the values
(src/mapsutils.py:636-638).  This holds for every service oracle `svc`. -/
theorem obtener_both_received (svc : LocSvc) :
    Localizacion.init (some (5, -74)) (some "Bogotá, Colombia") [] = .ok locAmbosEjemplo ∧
    Localizacion.obtener_latlng svc locAmbosEjemplo = (.ok .none, locAmbosEjemplo, []) ∧
    Localizacion.obtener_direccion svc locAmbosEjemplo = (.ok .none, locAmbosEjemplo, []) := by
  refine ⟨rfl, ?_, ?_⟩
  · rw [Localizacion.obtener_latlng_recibido svc locAmbosEjemplo rfl]
    rfl
  · rw [Localizacion.obtener_direccion_recibida svc locAmbosEjemplo rfl]
    rfl

/-! ## C7: derived distance/time accessors on a resolved route -/

/-- **C7**: on a resolved route (processed, payload cached),
`distancia_ruta_bing_kilometros` returns exactly the provider's
`travelDistance` field and `tiempo_de_viaje_segundos` its
`travelDurationTraffic` field, and — exactly, over the rationals —
`distancia_ruta_bing_metros` returns `travelDistance * 1000` and
`tiempo_de_viaje_minutos` returns `travelDurationTraffic / 60`; none of the
four accessors changes the state or issues a call. -/
theorem distancia_tiempo_resolved_spec (lsvc : LocSvc) (rsvc : RouteSvc)
    (self : Ruta) (d : RutaData)
    (h1 : self.data_procesada = true) (h2 : self.data = some d) :
    Ruta.distancia_ruta_bing_kilometros lsvc rsvc self = (.ok d.travelDistance, self, []) ∧
    Ruta.distancia_ruta_bing_metros lsvc rsvc self
      = (.ok (d.travelDistance * 1000), self, []) ∧
    Ruta.tiempo_de_viaje_segundos lsvc rsvc self = (.ok d.travelDurationTraffic, self, []) ∧
    Ruta.tiempo_de_viaje_minutos lsvc rsvc self
      = (.ok (d.travelDurationTraffic / 60), self, []) := by
  have hk : Ruta.distancia_ruta_bing_kilometros lsvc rsvc self
      = (.ok d.travelDistance, self, []) := by
    simp [Ruta.distancia_ruta_bing_kilometros, h1, h2]
  have hs : Ruta.tiempo_de_viaje_segundos lsvc rsvc self
      = (.ok d.travelDurationTraffic, self, []) := by
    simp [Ruta.tiempo_de_viaje_segundos, h1, h2]
  refine ⟨hk, ?_, hs, ?_⟩
  · simp [Ruta.distancia_ruta_bing_metros, hk]
  · simp [Ruta.tiempo_de_viaje_minutos, hs]

/-- The §8 scenario route: resolved with `travelDistance = 15.2` and
`travelDurationTraffic = 1200`. -/
def rutaEscenario : Ruta :=
  { data_procesada := true, imagen_procesada := false,
    inicio := locCoordEjemplo, final := locCoordEjemplo, paradas := [],
    kwargs := [], data := some ⟨152/10, 1200⟩ }

/-- Witness for C7: the §8 scenario — `travelDistance = 15.2` and
`travelDurationTraffic = 1200` give `routeDistanceM() = 15200` and
`travelTimeMin() = 20`, exactly. -/
theorem distancia_tiempo_resolved_spec_witness :
    (Ruta.distancia_ruta_bing_metros failLocSvc okRouteSvc rutaEscenario).1 = .ok 15200 ∧
    (Ruta.tiempo_de_viaje_minutos failLocSvc okRouteSvc rutaEscenario).1 = .ok 20 := by
  have h := distancia_tiempo_resolved_spec failLocSvc okRouteSvc rutaEscenario
    ⟨152/10, 1200⟩ rfl rfl
  constructor
  · rw [h.2.1]
    simp only [Except.ok.injEq]
    norm_num
  · rw [h.2.2.2]
    simp only [Except.ok.injEq]
    norm_num

/-! ## C8: route dependency check on start/end flags -/

/-- **C8**: with the route unresolved, `Ruta.procesar` checks only the
already-known flags of its endpoints — not a forced resolve.  If `start`
carries neither a known coordinate nor a known address it fails with the
start `DependencyUnresolved` error, issuing no provider call at all and
leaving the route state (indeed the whole object) unchanged; if `start`
passes (either flag set) and `end` carries neither, it fails likewise with
the end error. -/
theorem ruta_procesar_dependency_check (lsvc : LocSvc) (rsvc : RouteSvc)
    (self : Ruta) (hdp : self.data_procesada = false) :
    (self.inicio.latlng_recibido = false → self.inicio.direccion_recibida = false →
      Ruta.procesar lsvc rsvc self = (.error .inicioNoProcesada, self, [])) ∧
    ((self.inicio.latlng_recibido = true ∨ self.inicio.direccion_recibida = true) →
      self.final.latlng_recibido = false → self.final.direccion_recibida = false →
      Ruta.procesar lsvc rsvc self = (.error .finalNoProcesada, self, [])) := by
  constructor
  · intro h1 h2
    simp [Ruta.procesar, hdp, h1, h2]
    cases self
    simp_all
  · intro hi h1 h2
    by_cases hl : self.inicio.latlng_recibido
    · simp [Ruta.procesar, hdp, hl, h1, h2,
        Localizacion.obtener_latlng_recibido lsvc self.inicio hl]
      cases self
      simp_all
    · have hd : self.inicio.direccion_recibida = true := by
        rcases hi with hi | hi
        · exact absurd hi (by simp [hl])
        · exact hi
      simp [Ruta.procesar, hdp, hl, hd, h1, h2,
        Localizacion.obtener_direccion_recibida lsvc self.inicio hd]
      cases self
      simp_all

/-- Witness for C8: a start (resp. end) endpoint with neither flag set makes
`procesar` fail with the corresponding dependency error, with no call and no
state change. -/
theorem ruta_procesar_dependency_check_witness :
    Ruta.procesar failLocSvc okRouteSvc
        (Ruta.init locSinDatosEjemplo locCoordEjemplo [] [])
      = (.error .inicioNoProcesada, Ruta.init locSinDatosEjemplo locCoordEjemplo [] [], []) ∧
    Ruta.procesar failLocSvc okRouteSvc
        (Ruta.init locCoordEjemplo locSinDatosEjemplo [] [])
      = (.error .finalNoProcesada, Ruta.init locCoordEjemplo locSinDatosEjemplo [] [], []) := by
  have h1 := ruta_procesar_dependency_check failLocSvc okRouteSvc
    (Ruta.init locSinDatosEjemplo locCoordEjemplo [] []) rfl
  have h2 := ruta_procesar_dependency_check failLocSvc okRouteSvc
    (Ruta.init locCoordEjemplo locSinDatosEjemplo [] []) rfl
  exact ⟨h1.1 rfl rfl, h2.2 (Or.inl rfl) rfl rfl⟩

/-! ## C10: via-stop side effects and frame of route resolution -/

/-- **C10**: route resolution never mutates the `start` and `end` entities;
every route call it issues encodes the via stops through their coordinate
accessor, so the via token list never contains an address string; and on
success every via stop has been left either with its received coordinate or
silently mutated to resolved state (its `_data_procesada` flag set by the
cascaded `obtener_latlng`), one token per stop having been encoded into the
route call. -/
theorem ruta_procesar_vias_spec (lsvc : LocSvc) (rsvc : RouteSvc) (self : Ruta)
    (r : Except MapError RutaData) (st : Ruta) (tr : List ProvCall)
    (h : Ruta.procesar lsvc rsvc self = (r, st, tr)) :
    st.inicio = self.inicio ∧ st.final = self.final ∧
    (∀ i f vs kw, ProvCall.route i f vs kw ∈ tr → ∀ s, PyObj.str s ∉ vs) ∧
    (∀ d, r = .ok d →
      (∀ p ∈ st.paradas, p.latlng_recibido = true ∨ p.data_procesada = true) ∧
      ∃ i f vs kw, ProvCall.route i f vs kw ∈ tr ∧ vs.length = self.paradas.length) := by
  have hs := Ruta.procesar_spec lsvc rsvc self r st tr h
  refine ⟨hs.1, hs.2.1, ?_, ?_⟩
  · intro i f vs kw hm s hmem
    rcases hs.2.2.2.2 i f vs kw hm with ⟨ps, tr3, hpar, _⟩
    exact (paradasLatLng_ok_shape lsvc self.paradas vs ps tr3 hpar).1 _ hmem s rfl
  · intro d hd
    rcases hs.2.2.2.1 d hd with ⟨_, _, i, f, vs, kw, ps, tr3, hm, hpar, hst⟩
    have hsh := paradasLatLng_ok_shape lsvc self.paradas vs ps tr3 hpar
    constructor
    · intro p hp
      rw [hst] at hp
      exact hsh.2.1 p hp
    · exact ⟨i, f, vs, kw, hm, hsh.2.2⟩

/-- The state after resolving a route whose single via stop was an
address-only location: the via has been silently resolved. -/
def rutaViaResuelta : Ruta :=
  { data_procesada := true, imagen_procesada := false,
    inicio := locCoordEjemplo, final := locCoordEjemplo,
    paradas := [locDireccionResuelto], kwargs := [], data := some ⟨15, 1200⟩ }

/-- Witness for C10: resolving a route with an address-only via stop leaves
start/end untouched and the via resolved. -/
theorem ruta_procesar_vias_spec_witness :
    rutaViaResuelta.inicio = locCoordEjemplo ∧
    (∀ p ∈ rutaViaResuelta.paradas,
      p.latlng_recibido = true ∨ p.data_procesada = true) := by
  have h := ruta_procesar_vias_spec okLocSvc okRouteSvc
    (Ruta.init locCoordEjemplo locCoordEjemplo [locDireccionEjemplo] [])
    (.ok ⟨15, 1200⟩) rutaViaResuelta
    [.loc (.addr "Bogotá, Colombia") [],
     .route (.tup (5, -74)) (.tup (5, -74)) [.tup (1, 2)] []]
    (by decide)
  exact ⟨h.1, (h.2.2.2 ⟨15, 1200⟩ rfl).1⟩
